import Mathlib

set_option linter.unusedVariables false

/-!
Shallow embedding of the clone bridge in src/clone.go (git2go).

The file models the four pieces of the bridge: the public Clone
orchestrator, the option translation (populateCloneOptions), the release
counterpart (freeCloneOptions) and the remote-creation callback trampoline
(remoteCreateCallback).  Collaborators that live outside src/ — the handle
registry, MakeGitError, ErrorCode.String, newRepositoryFromC and the native
git_clone primitive — are modelled from the specification and marked as
such in their doc comments.  Go runtime behaviour that the code relies on
(nil-pointer dereference panics, the fatal error raised by
runtime.SetFinalizer on a typed nil pointer, C.free being a no-op on NULL)
is modelled explicitly where the source exercises it.
-/

namespace Git2Go

/-- GIT_OK: the success code of the native engine. -/
def ErrorCodeOK : Int := 0

/-- GIT_EUSER: the reserved "user-originated failure" sentinel code. -/
def ErrorCodeUser : Int := -7

/-- Modelled from the spec: the textual description of a result code
(ErrorCode.String, defined outside src/). Any fixed code-to-text mapping
serves; only its use by the trampoline matters here. -/
def errorCodeString (c : Int) : String := "git error code " ++ toString c

/-- A managed Go error value: either the engine error produced by
MakeGitError or an error built with errors.New. -/
inductive GoError where
  | gitError (code : Int)
  | newError (msg : String)
  deriving DecidableEq, Repr

/-- Modelled from the spec: MakeGitError (outside src/), the native
engine's standard error-code-to-message mapping. -/
def MakeGitError (ret : Int) : GoError := GoError.gitError ret

/-- A managed Repository wrapper around a native pointer.  The
`finalizerSet` field models whether a release-on-destruction finalizer is
attached, i.e. whether the managed side owns the native object. -/
structure Repository where
  ptr : Nat
  finalizerSet : Bool
  deriving DecidableEq, Repr

/-- A managed Remote wrapper around a native pointer, with the same
ownership/finalizer model as `Repository`. -/
structure Remote where
  ptr : Nat
  finalizerSet : Bool
  deriving DecidableEq, Repr

/-- Modelled from the spec: newRepositoryFromC (outside src/) wraps a
native pointer in an owned managed handle (finalizer attached). -/
def newRepositoryFromC (p : Nat) : Repository :=
  { ptr := p, finalizerSet := true }

/-- Opaque managed checkout sub-configuration (external collaborator). -/
structure CheckoutOpts where
  id : Nat
  deriving DecidableEq, Repr

/-- Opaque managed fetch sub-configuration (external collaborator). -/
structure FetchOptions where
  id : Nat
  deriving DecidableEq, Repr

/-- The managed remote-creation callback type: Go's
`func(repo :*Repository, name, url string) (:*Remote, ErrorCode)`.
The Go pointer result may be nil, hence `Option Remote`. -/
abbrev RemoteCreateCallback := Repository → String → String → Option Remote × Int

/-- The managed CloneOptions structure of src/clone.go.  Go's embedded
pointers `:*CheckoutOpts` and `:*FetchOptions` become `Option` fields and
the nilable function field becomes an `Option` of the callback type. -/
structure CloneOptions where
  checkoutOpts : Option CheckoutOpts
  fetchOptions : Option FetchOptions
  bare : Bool
  checkoutBranch : String
  remoteCreateCallback : Option RemoteCreateCallback

/-- Translated native checkout sub-options (produced by the external
checkout translator). -/
structure NativeCheckoutOptions where
  sub : Option CheckoutOpts
  deriving DecidableEq, Repr

/-- Translated native fetch sub-options (produced by the external fetch
translator). -/
structure NativeFetchOptions where
  sub : Option FetchOptions
  deriving DecidableEq, Repr

/-- Modelled from the spec: populateCheckoutOptions (outside src/), the
checkout sub-translator entry point. -/
def populateCheckoutOptions (co : Option CheckoutOpts) : NativeCheckoutOptions :=
  { sub := co }

/-- Modelled from the spec: populateFetchOptions (outside src/), the fetch
sub-translator entry point. -/
def populateFetchOptions (fo : Option FetchOptions) : NativeFetchOptions :=
  { sub := fo }

/-- The native git_clone_options structure as the bridge sees it:
checkout/fetch sub-options, the bare flag, the branch-name buffer
(`checkout_branch`, none = NULL), whether the trampoline hook was
installed (`remote_cb_installed`) and the payload token (none = NULL). -/
structure GitCloneOptions where
  version : Nat
  checkout_opts : NativeCheckoutOptions
  fetch_opts : NativeFetchOptions
  bare : Bool
  checkout_branch : Option String
  remote_cb_installed : Bool
  remote_cb_payload : Option Nat
  deriving DecidableEq, Repr

def GIT_CLONE_OPTIONS_VERSION : Nat := 1

/-- Modelled from the spec: git_clone_options_init sets the engine's
documented defaults (no branch buffer, no hook, no payload). -/
def gitCloneOptionsInit : GitCloneOptions :=
  { version := GIT_CLONE_OPTIONS_VERSION
    checkout_opts := { sub := none }
    fetch_opts := { sub := none }
    bare := false
    checkout_branch := none
    remote_cb_installed := false
    remote_cb_payload := none }

/-- The cloneCallbackData registration entry of src/clone.go: it carries
the managed configuration.  The errorTarget pointer it also carries is
modelled by threading the error cell explicitly through the trampoline. -/
structure CloneCallbackData where
  options : CloneOptions

/-- A value stored in the handle registry.  The `other` constructor stands
for tracked values of any type different from `:*cloneCallbackData`, so the
trampoline's type assertion is meaningful. -/
inductive Tracked where
  | cloneData (d : CloneCallbackData)
  | other (tag : Nat)

/-- Modelled from the spec: the process-wide handle registry
(pointerHandles, outside src/).  Tokens are opaque, unique for their
lifetime; `Get` of an unknown token is a fatal programming error. -/
structure HandleList where
  nextToken : Nat
  entries : List (Nat × Tracked)

def HandleList.empty : HandleList := { nextToken := 1, entries := [] }

/-- Modelled from the spec: Track(object) returns a fresh token. -/
def HandleList.track (h : HandleList) (v : Tracked) : Nat × HandleList :=
  (h.nextToken,
   { nextToken := h.nextToken + 1, entries := (h.nextToken, v) :: h.entries })

/-- Modelled from the spec: Get(token).  The payload is an untyped native
pointer, so it may also be NULL (`none`), which no registry ever issued. -/
def HandleList.get (h : HandleList) (tok : Option Nat) : Option Tracked :=
  match tok with
  | none => none
  | some t => h.entries.lookup t

/-- Modelled from the spec: Untrack(token) removes the entry. -/
def HandleList.untrack (h : HandleList) (tok : Nat) : HandleList :=
  { h with entries := h.entries.filter (fun e => e.1 != tok) }

def HandleList.size (h : HandleList) : Nat := h.entries.length

/-- populateCloneOptions from src/clone.go, lines 99-120.  Runs
git_clone_options_init, short-circuits to nil on a nil configuration,
translates the checkout and fetch sub-configurations, copies the bare
flag, and — when a remote-creation callback is present — installs the
trampoline hook and registers a cloneCallbackData entry, storing the
resulting token in remote_cb_payload. -/
def populateCloneOptions (opts : Option CloneOptions) (reg : HandleList) :
    Option GitCloneOptions × HandleList :=
  let ptr := gitCloneOptionsInit
  match opts with
  | none => (none, reg)
  | some o =>
    let ptr := { ptr with
      checkout_opts := populateCheckoutOptions o.checkoutOpts
      fetch_opts := populateFetchOptions o.fetchOptions
      bare := o.bare }
    match o.remoteCreateCallback with
    | none => (some ptr, reg)
    | some _ =>
      let data : CloneCallbackData := { options := o }
      let ptr := { ptr with remote_cb_installed := true }
      let tr := reg.track (Tracked.cloneData data)
      (some { ptr with remote_cb_payload := some tr.1 }, tr.2)

/-- One release step performed by freeCloneOptions.  `cFreeBranchBuf`
records the C.free call on the checkout_branch buffer together with the
pointer it received (none = NULL). -/
inductive ReleaseAction where
  | freeCheckoutSubOpts
  | freeFetchSubOpts
  | untrackPayload (tok : Nat)
  | cFreeBranchBuf (buf : Option String)
  deriving DecidableEq, Repr

/-- C semantics: free(NULL) releases nothing; every other listed action
releases the resource it names. -/
def ReleaseAction.releasesMemory : ReleaseAction → Bool
  | .cFreeBranchBuf none => false
  | _ => true

/-- freeCloneOptions from src/clone.go, lines 122-134.  A no-op on nil;
otherwise it calls freeCheckoutOptions on the checkout sub-options,
untracks the payload token when one is set, and C.frees the branch
buffer (unconditionally — free(NULL) is a safe no-op).  It returns the
registry after the release together with the list of release actions
performed, in program order. -/
def freeCloneOptions (ptr : Option GitCloneOptions) (reg : HandleList) :
    HandleList × List ReleaseAction :=
  match ptr with
  | none => (reg, [])
  | some p =>
    let payloadStep : HandleList × List ReleaseAction :=
      match p.remote_cb_payload with
      | some tok => (reg.untrack tok, [ReleaseAction.untrackPayload tok])
      | none => (reg, [])
    (payloadStep.1,
     ReleaseAction.freeCheckoutSubOpts ::
       payloadStep.2 ++ [ReleaseAction.cFreeBranchBuf p.checkout_branch])

/-- The result of one trampoline invocation: either a C return code
together with the value written through the out-parameter (none when the
trampoline returned without writing it), the final contents of the error
cell behind errorTarget, and the managed remote object as the Go runtime
sees it afterwards (finalizer state included); or a runtime panic that
aborts execution instead of returning to the native engine. -/
inductive TrampolineResult where
  | ret (code : Int) (remoteOut : Option Nat) (errCell : Option GoError)
        (remoteFinal : Option Remote)
  | panicked (msg : String)
  deriving DecidableEq, Repr

def TrampolineResult.isPanicked : TrampolineResult → Bool
  | .panicked _ => true
  | _ => false

/-- Go runtime semantics of runtime.SetFinalizer(x, nil) for a pointer x:
on a typed nil pointer it is a fatal error ("pointer not in allocated
block"), modelled as `none`; on a valid pointer it clears the finalizer. -/
def setFinalizerNilRemote (r : Option Remote) : Option Remote :=
  match r with
  | none => none
  | some rm => some { rm with finalizerSet := false }

/-- remoteCreateCallback from src/clone.go, lines 56-92: the callback
trampoline the native engine invokes.  It decodes name and url, wraps the
engine's repository pointer in a managed handle and immediately clears
its finalizer (the bridge does not own it), resolves the registration
entry from the registry (a Get miss is fatal, and so is a tracked value
of the wrong type), invokes the managed callback, clears the finalizer on
the returned remote (fatal when the remote is nil, before any result-code
inspection), then maps the result: negative code — store
errors.New(ErrorCode(ret).String()) in the error cell and return the
GIT_EUSER sentinel; otherwise write the remote's raw pointer through the
out-parameter and return GIT_OK.  The explicit nil-remote check of line
84 sits after the negative-code branch and is modelled by the match on
`remoteCleared`; it is unreachable because SetFinalizer already faulted
on a nil remote. -/
def remoteCreateCallback (reg : HandleList) (errCell : Option GoError)
    (crepo : Nat) (cname curl : String) (payload : Option Nat) :
    TrampolineResult :=
  let name := cname
  let url := curl
  let repo := newRepositoryFromC crepo
  -- runtime.SetFinalizer(repo, nil): we do not own this repository
  let repo := { repo with finalizerSet := false }
  match reg.get payload with
  | none =>
      -- Modelled from the spec: HandleList.Get on an unknown token is fatal
      TrampolineResult.panicked "invalid pointer handle"
  | some (Tracked.other _) =>
      TrampolineResult.panicked "invalid remote create callback"
  | some (Tracked.cloneData data) =>
    match data.options.remoteCreateCallback with
    | none =>
        -- calling a nil Go function value is a runtime panic
        TrampolineResult.panicked
          "runtime error: invalid memory address or nil pointer dereference"
    | some cb =>
      let res := cb repo name url
      -- runtime.SetFinalizer(remote, nil): clear finalizer as the calling
      -- C function will free the remote itself
      match setFinalizerNilRemote res.1 with
      | none =>
          TrampolineResult.panicked
            "runtime.SetFinalizer: pointer not in allocated block"
      | some remoteCleared =>
        if res.2 < 0 then
          TrampolineResult.ret ErrorCodeUser none
            (some (GoError.newError (errorCodeString res.2)))
            (some remoteCleared)
        else
          TrampolineResult.ret ErrorCodeOK (some remoteCleared.ptr) errCell
            (some remoteCleared)

/-- An abstract behaviour of the native engine for one git_clone call:
whether it reaches the remote-creation extension point (and with which
repository pointer, name and url it would invoke the hook), and the code
and repository pointer with which the clone itself completes. -/
structure Engine where
  hookArgs : Option (Nat × String × String)
  ret : Int
  finalPtr : Nat

/-- Outcome of the native git_clone call: the returned code, the produced
repository pointer, the error cell after the call (the trampoline may
have written it), and how many times the hook was invoked; or a managed
panic raised inside the trampoline. -/
inductive NativeResult where
  | done (ret : Int) (repoPtr : Nat) (errCell : Option GoError)
         (hookInvocations : Nat)
  | panicked (msg : String)
  deriving DecidableEq, Repr

def NativeResult.hookCount : NativeResult → Option Nat
  | .done _ _ _ k => some k
  | .panicked _ => none

/-- Modelled from the spec: the native clone primitive (git_clone,
external collaborator).  It invokes the installed remote-creation hook at
most once; with no options or no installed hook it never invokes the
trampoline.  A nonzero code returned by the hook propagates as the
return code of git_clone; on GIT_OK the engine completes with its own
final code and pointer. -/
def runGitClone (eng : Engine) (opts : Option GitCloneOptions)
    (errCell : Option GoError) (reg : HandleList) : NativeResult :=
  match opts with
  | some o =>
    if o.remote_cb_installed then
      match eng.hookArgs with
      | some (rp, n, u) =>
        match remoteCreateCallback reg errCell rp n u o.remote_cb_payload with
        | TrampolineResult.panicked m => NativeResult.panicked m
        | TrampolineResult.ret code _ errCellNew _ =>
          if code = ErrorCodeOK then
            NativeResult.done eng.ret eng.finalPtr errCellNew 1
          else
            NativeResult.done code 0 errCellNew 1
      | none => NativeResult.done eng.ret eng.finalPtr errCell 0
    else NativeResult.done eng.ret eng.finalPtr errCell 0
  | none => NativeResult.done eng.ret eng.finalPtr errCell 0

/-- Outcome of the public Clone operation: a managed repository, a
returned error, or a runtime panic. -/
inductive Outcome (α : Type) where
  | ok (a : α)
  | err (e : GoError)
  | panicked (msg : String)
  deriving DecidableEq, Repr

/-- The return-code interpretation of src/clone.go, lines 46-53:
`if ret == C.int(ErrorCodeUser) && err != nil` return the captured error;
`if ret < 0` return MakeGitError(ret); otherwise wrap the native pointer
in an owned repository handle.  Written as a match on the error cell so
the captured error can be returned without a partial projection. -/
def interpretCloneResult (ret : Int) (err : Option GoError) (ptr : Nat) :
    Outcome Repository :=
  match err with
  | some e =>
    if ret = ErrorCodeUser then Outcome.err e
    else if ret < 0 then Outcome.err (MakeGitError ret)
    else Outcome.ok (newRepositoryFromC ptr)
  | none =>
    if ret < 0 then Outcome.err (MakeGitError ret)
    else Outcome.ok (newRepositoryFromC ptr)

/-- The options actually handed to git_clone: populateCloneOptions
followed by the late branch override of src/clone.go lines 36-38 —
when options.CheckoutBranch is non-empty, checkout_branch is set to a
fresh buffer holding it, replacing whatever translation produced. -/
def cloneBuiltOptions (options : Option CloneOptions) (reg : HandleList) :
    Option GitCloneOptions × HandleList :=
  let pr := populateCloneOptions options reg
  match options with
  | none => pr
  | some o =>
    if o.checkoutBranch.length ≠ 0 then
      (pr.1.map (fun p => { p with checkout_branch := some o.checkoutBranch }),
       pr.2)
    else pr

/-- Clone from src/clone.go, lines 25-54.  Allocates the url/path buffers
(not observable here), translates the options, applies the branch
override, invokes the native primitive once, releases the translated
options on every exit path, and interprets the returned code.  With a nil
configuration the read of options.CheckoutBranch on line 36 dereferences
a nil pointer and panics; the deferred freeCloneOptions still runs while
unwinding (a no-op, since translation short-circuited to nil). -/
def Clone (eng : Engine) (url path : String) (options : Option CloneOptions)
    (reg : HandleList) : Outcome Repository × HandleList :=
  match options with
  | none =>
    let pr := populateCloneOptions options reg
    let fr := freeCloneOptions pr.1 pr.2
    (Outcome.panicked
       "runtime error: invalid memory address or nil pointer dereference",
     fr.1)
  | some _ =>
    let pr := cloneBuiltOptions options reg
    match runGitClone eng pr.1 none pr.2 with
    | NativeResult.panicked m => (Outcome.panicked m, pr.2)
    | NativeResult.done ret ptr errC _ =>
      (interpretCloneResult ret errC ptr, (freeCloneOptions pr.1 pr.2).1)

/-- Does this configuration carry a remote-creation callback? -/
def optionsHaveCallback : Option CloneOptions → Bool
  | none => false
  | some o => o.remoteCreateCallback.isSome

/-- Does the payload token resolve in the registry to a callback
registration entry (a tracked `:*cloneCallbackData`)? -/
def resolvesToCloneData (reg : HandleList) (payload : Option Nat) : Bool :=
  match reg.get payload with
  | some (Tracked.cloneData _) => true
  | _ => false

/-! Concrete fixtures used by the witness and counterexample theorems. -/

/-- Engine fixture: completes directly with code 0 and pointer 42. -/
def engC1 : Engine := { hookArgs := none, ret := 0, finalPtr := 42 }

/-- Configuration fixture: empty configuration, no callback. -/
def optsC1 : CloneOptions :=
  { checkoutOpts := none, fetchOptions := none, bare := false,
    checkoutBranch := "", remoteCreateCallback := none }

/-- Engine fixture for the nil-configuration call. -/
def engC3 : Engine := { hookArgs := none, ret := 0, finalPtr := 0 }

/-- Managed callback fixture: fails with code -1 and returns no remote. -/
def cbC2 : RemoteCreateCallback := fun _ _ _ => (none, -1)

def dataC2 : CloneCallbackData :=
  { options := { checkoutOpts := none, fetchOptions := none, bare := false,
                 checkoutBranch := "", remoteCreateCallback := some cbC2 } }

def regC2 : HandleList :=
  { nextToken := 2, entries := [(1, Tracked.cloneData dataC2)] }

/-- A translated native options value: what populateCloneOptions produces
for a configuration with a checkout sub-configuration and no callback. -/
def cOptsC4 : GitCloneOptions :=
  { version := 1, checkout_opts := { sub := some { id := 3 } },
    fetch_opts := { sub := none }, bare := false,
    checkout_branch := none, remote_cb_installed := false,
    remote_cb_payload := none }

def optsC4 : CloneOptions :=
  { checkoutOpts := some { id := 3 }, fetchOptions := none, bare := false,
    checkoutBranch := "", remoteCreateCallback := none }

/-! Theorems for the claims, in claim order. -/

/-- C1: for every Clone call, the native clone primitive's return code is
interpreted as follows — if it equals the reserved user-originated-failure
sentinel and an error was captured by the trampoline, Clone returns that
captured error; otherwise a strictly negative code yields the error of the
engine's standard error-code-to-message mapping; otherwise Clone returns
an owned repository handle wrapping the native repository pointer. -/
theorem clone_interprets_return_code
    (eng : Engine) (url path : String) (o : CloneOptions) (reg : HandleList)
    (ret : Int) (ptr : Nat) (errC : Option GoError) (k : Nat)
    (h : runGitClone eng (cloneBuiltOptions (some o) reg).1 none
           (cloneBuiltOptions (some o) reg).2 = NativeResult.done ret ptr errC k) :
    (Clone eng url path (some o) reg).1 = interpretCloneResult ret errC ptr ∧
    (∀ e, errC = some e → ret = ErrorCodeUser →
      (Clone eng url path (some o) reg).1 = Outcome.err e) ∧
    (¬ (ret = ErrorCodeUser ∧ errC ≠ none) → ret < 0 →
      (Clone eng url path (some o) reg).1 = Outcome.err (MakeGitError ret)) ∧
    (0 ≤ ret →
      (Clone eng url path (some o) reg).1
        = Outcome.ok { ptr := ptr, finalizerSet := true }) := by
  have hc : (Clone eng url path (some o) reg).1 = interpretCloneResult ret errC ptr := by
    simp only [Clone]
    rw [h]
  refine ⟨hc, ?_, ?_, ?_⟩
  · intro e he hret
    rw [hc, he]
    simp [interpretCloneResult, hret]
  · intro hns hneg
    rw [hc]
    rcases errC with _ | e
    · simp [interpretCloneResult, hneg]
    · have hne : ret ≠ ErrorCodeUser := by
        intro hr
        exact hns ⟨hr, by simp⟩
      simp [interpretCloneResult, hne, hneg]
  · intro hpos
    rw [hc]
    have h1 : ¬ ret < 0 := by omega
    have h2 : ret ≠ ErrorCodeUser := by
      simp only [ErrorCodeUser]
      omega
    rcases errC with _ | e <;>
      simp [interpretCloneResult, h1, h2, newRepositoryFromC]

/-- C1 witness: a direct engine completion with code 0 and pointer 42 is
interpreted through interpretCloneResult. -/
theorem clone_interprets_return_code_witness :
    (Clone engC1 "u" "p" (some optsC1) HandleList.empty).1
      = interpretCloneResult 0 none 42 :=
  (clone_interprets_return_code engC1 "u" "p" optsC1 HandleList.empty
    0 42 none 0 rfl).1

/-- C2 failing input: when the managed callback returns a negative code
together with a nil remote (the shape the spec's contract prescribes for
failures), the trampoline faults in runtime.SetFinalizer before the
error-capture branch, instead of storing the error and returning the
sentinel. -/
theorem remoteCreateCallback_negative_nil_remote_faults :
    remoteCreateCallback regC2 none 7 "origin" "https://example.invalid/r.git"
        (some 1)
      = TrampolineResult.panicked
          "runtime.SetFinalizer: pointer not in allocated block" := rfl

/-- C3 failing input: Clone with an absent (nil) configuration panics on
the nil-pointer dereference at the branch-override step and never reaches
the native clone primitive, although option translation itself handles the
absent configuration (it yields nil, meaning engine defaults, no hook). -/
theorem clone_nil_options_panics :
    Clone engC3 "url" "path" none HandleList.empty
      = (Outcome.panicked
           "runtime error: invalid memory address or nil pointer dereference",
         HandleList.empty) ∧
    populateCloneOptions none HandleList.empty = (none, HandleList.empty) :=
  ⟨rfl, rfl⟩

/-- C4 amended: the options release function is a safe no-op on a nil
translation result, unregisters the handle-registry entry if and only if
one was registered, performs the C.free of the branch-name buffer which
releases memory exactly when the buffer was allocated, never releases the
fetch sub-option structures — but it does release the checkout
sub-options by invoking the checkout translator's teardown. -/
theorem freeCloneOptions_release_spec
    (p : GitCloneOptions) (reg : HandleList) (t : Nat) :
    freeCloneOptions none reg = (reg, []) ∧
    (ReleaseAction.untrackPayload t ∈ (freeCloneOptions (some p) reg).2 ↔
      p.remote_cb_payload = some t) ∧
    ((freeCloneOptions (some p) reg).1 =
      match p.remote_cb_payload with
      | some tok => reg.untrack tok
      | none => reg) ∧
    ReleaseAction.cFreeBranchBuf p.checkout_branch
      ∈ (freeCloneOptions (some p) reg).2 ∧
    ((ReleaseAction.cFreeBranchBuf p.checkout_branch).releasesMemory = true ↔
      p.checkout_branch ≠ none) ∧
    ReleaseAction.freeFetchSubOpts ∉ (freeCloneOptions (some p) reg).2 ∧
    ReleaseAction.freeCheckoutSubOpts ∈ (freeCloneOptions (some p) reg).2 := by
  refine ⟨rfl, ?_, ?_, ?_, ?_, ?_, ?_⟩ <;>
    rcases hp : p.remote_cb_payload with _ | tok <;>
      rcases hb : p.checkout_branch with _ | s <;>
        simp [freeCloneOptions, hp, hb, ReleaseAction.releasesMemory, eq_comm]

/-- C4 counterexample: on the translated native options of an ordinary
configuration, the release function does release the checkout sub-option
structure (it invokes freeCheckoutOptions), refuting the claim that it
does not. -/
theorem freeCloneOptions_releases_checkout_counterexample :
    (populateCloneOptions (some optsC4) HandleList.empty).1 = some cOptsC4 ∧
    ReleaseAction.freeCheckoutSubOpts
      ∈ (freeCloneOptions (some cOptsC4) HandleList.empty).2 :=
  ⟨rfl, by simp [freeCloneOptions, cOptsC4]⟩

/-- Configuration fixture with a non-empty checkout branch. -/
def optsC5 : CloneOptions :=
  { checkoutOpts := some { id := 1 }, fetchOptions := none, bare := false,
    checkoutBranch := "dev", remoteCreateCallback := none }

/-- C5: when the configuration carries a non-empty checkoutBranch, the
branch field of the options handed to the native clone primitive equals
that string, replacing whatever translation produced for the field,
regardless of the rest of the configuration; when checkoutBranch is
empty, the options are exactly what translation produced. -/
theorem clone_branch_override (o : CloneOptions) (reg : HandleList) :
    (o.checkoutBranch.length ≠ 0 →
      (cloneBuiltOptions (some o) reg).1
        = (populateCloneOptions (some o) reg).1.map
            (fun p => { p with checkout_branch := some o.checkoutBranch }) ∧
      ∀ p, (cloneBuiltOptions (some o) reg).1 = some p →
        p.checkout_branch = some o.checkoutBranch) ∧
    (o.checkoutBranch.length = 0 →
      (cloneBuiltOptions (some o) reg).1 = (populateCloneOptions (some o) reg).1) := by
  constructor
  · intro hb
    constructor
    · simp [cloneBuiltOptions, hb]
    · intro p hp
      simp only [cloneBuiltOptions, hb, ne_eq, not_false_iff, if_true] at hp
      rcases hmap : (populateCloneOptions (some o) reg).1 with _ | q
      · rw [hmap] at hp
        simp at hp
      · rw [hmap] at hp
        have hq : ({ q with checkout_branch := some o.checkoutBranch } : GitCloneOptions) = p :=
          Option.some.inj hp
        rw [← hq]
  · intro hb
    simp [cloneBuiltOptions, hb]

/-- C5 witness: with checkoutBranch "dev" the built options equal the
translated options with the branch field overridden to "dev". -/
theorem clone_branch_override_witness :
    (cloneBuiltOptions (some optsC5) HandleList.empty).1
      = (populateCloneOptions (some optsC5) HandleList.empty).1.map
          (fun p => { p with checkout_branch := some optsC5.checkoutBranch }) :=
  ((clone_branch_override optsC5 HandleList.empty).1 (by decide)).1

/-- Managed callback fixture: reports success but produces no remote. -/
def cbC6 : RemoteCreateCallback := fun _ _ _ => (none, 0)

def dataC6 : CloneCallbackData :=
  { options := { checkoutOpts := none, fetchOptions := none, bare := false,
                 checkoutBranch := "", remoteCreateCallback := some cbC6 } }

def regC6 : HandleList :=
  { nextToken := 2, entries := [(1, Tracked.cloneData dataC6)] }

/-- C6: when the managed callback returns a success result code but no
remote handle, the trampoline aborts execution rather than returning a
normal error code or success to the native engine. -/
theorem trampoline_success_without_remote_panics
    (reg : HandleList) (errC : Option GoError) (crepo : Nat)
    (name url : String) (payload : Option Nat) (data : CloneCallbackData)
    (cb : RemoteCreateCallback) (ret : Int)
    (hget : reg.get payload = some (Tracked.cloneData data))
    (hcb : data.options.remoteCreateCallback = some cb)
    (hres : cb { ptr := crepo, finalizerSet := false } name url = (none, ret))
    (hret : 0 ≤ ret) :
    (remoteCreateCallback reg errC crepo name url payload).isPanicked = true := by
  simp [remoteCreateCallback, newRepositoryFromC, hget, hcb, hres,
        setFinalizerNilRemote, TrampolineResult.isPanicked]

/-- C6 witness: a callback returning (nil, 0) makes the trampoline abort. -/
theorem trampoline_success_without_remote_panics_witness :
    (remoteCreateCallback regC6 none 7 "origin" "u" (some 1)).isPanicked = true :=
  trampoline_success_without_remote_panics regC6 none 7 "origin" "u" (some 1)
    dataC6 cbC6 0 rfl rfl rfl (by decide)

/-- Managed callback fixture: succeeds with an owned remote wrapper. -/
def cbC7 : RemoteCreateCallback :=
  fun _ _ _ => (some { ptr := 99, finalizerSet := true }, 0)

def dataC7 : CloneCallbackData :=
  { options := { checkoutOpts := none, fetchOptions := none, bare := false,
                 checkoutBranch := "", remoteCreateCallback := some cbC7 } }

def regC7 : HandleList :=
  { nextToken := 2, entries := [(1, Tracked.cloneData dataC7)] }

/-- C7: when the managed callback returns a remote handle with a success
code, the trampoline clears the managed side's ownership of the remote
(its finalizer), writes the remote's raw native pointer through the
output parameter, and returns the success code. -/
theorem trampoline_success_with_remote
    (reg : HandleList) (errC : Option GoError) (crepo : Nat)
    (name url : String) (payload : Option Nat) (data : CloneCallbackData)
    (cb : RemoteCreateCallback) (rm : Remote) (ret : Int)
    (hget : reg.get payload = some (Tracked.cloneData data))
    (hcb : data.options.remoteCreateCallback = some cb)
    (hres : cb { ptr := crepo, finalizerSet := false } name url = (some rm, ret))
    (hret : 0 ≤ ret) :
    remoteCreateCallback reg errC crepo name url payload
      = TrampolineResult.ret ErrorCodeOK (some rm.ptr) errC
          (some { rm with finalizerSet := false }) := by
  have hnot : ¬ ret < 0 := by omega
  simp [remoteCreateCallback, newRepositoryFromC, hget, hcb, hres,
        setFinalizerNilRemote, hnot]

/-- C7 witness: a callback succeeding with an owned remote of pointer 99
yields GIT_OK, the pointer 99 written out, and the finalizer cleared. -/
theorem trampoline_success_with_remote_witness :
    remoteCreateCallback regC7 none 7 "origin" "u" (some 1)
      = TrampolineResult.ret ErrorCodeOK (some 99) none
          (some { ptr := 99, finalizerSet := false }) :=
  trampoline_success_with_remote regC7 none 7 "origin" "u" (some 1)
    dataC7 cbC7 { ptr := 99, finalizerSet := true } 0 rfl rfl rfl (by decide)

/-- Engine and configuration fixtures for the no-callback frame claim. -/
def engC8 : Engine := { hookArgs := some (5, "origin", "u"), ret := 0, finalPtr := 11 }

def optsC8 : CloneOptions :=
  { checkoutOpts := some { id := 2 }, fetchOptions := some { id := 4 },
    bare := true, checkoutBranch := "dev", remoteCreateCallback := none }

/-- Helper: for a configuration without a callback, the built options are
some value with no hook installed and no payload, and the registry is
untouched by translation. -/
theorem built_no_cb (o : CloneOptions) (reg : HandleList)
    (hcb : o.remoteCreateCallback = none) :
    ∃ P : GitCloneOptions, cloneBuiltOptions (some o) reg = (some P, reg) ∧
      P.remote_cb_installed = false ∧ P.remote_cb_payload = none := by
  by_cases hb : o.checkoutBranch.length ≠ 0 <;>
    simp [cloneBuiltOptions, populateCloneOptions, hcb, hb, gitCloneOptionsInit]

/-- C8: for every configuration without a remote-creation callback,
translation neither registers a handle-registry entry nor installs the
trampoline hook (the payload stays unset), the trampoline is never
invoked by the native call (its hook-invocation count is zero), and the
handle registry — in particular its size — is unchanged across the whole
Clone call. -/
theorem clone_no_callback_frame
    (eng : Engine) (url path : String) (options : Option CloneOptions)
    (reg : HandleList) (errC : Option GoError)
    (h : optionsHaveCallback options = false) :
    (populateCloneOptions options reg).2 = reg ∧
    (∀ p, (populateCloneOptions options reg).1 = some p →
      p.remote_cb_installed = false ∧ p.remote_cb_payload = none) ∧
    (runGitClone eng (cloneBuiltOptions options reg).1 errC
        (cloneBuiltOptions options reg).2).hookCount = some 0 ∧
    (Clone eng url path options reg).2 = reg ∧
    (Clone eng url path options reg).2.size = reg.size := by
  rcases options with _ | o
  · exact ⟨rfl, fun p hp => by simp [populateCloneOptions] at hp,
      rfl, rfl, rfl⟩
  · have hcb : o.remoteCreateCallback = none := by
      rcases hc : o.remoteCreateCallback with _ | c
      · rfl
      · simp [optionsHaveCallback, hc] at h
    obtain ⟨P, hP, hi, hpay⟩ := built_no_cb o reg hcb
    have hpop2 : (populateCloneOptions (some o) reg).2 = reg := by
      simp [populateCloneOptions, hcb]
    have hrun : ∀ ec, runGitClone eng (cloneBuiltOptions (some o) reg).1 ec
        (cloneBuiltOptions (some o) reg).2 = NativeResult.done eng.ret eng.finalPtr ec 0 := by
      intro ec
      rw [hP]
      simp [runGitClone, hi]
    refine ⟨hpop2, ?_, ?_, ?_, ?_⟩
    · intro p hp
      revert hp
      simp [populateCloneOptions, hcb, gitCloneOptionsInit]
      intro hp
      rw [← hp]
      exact ⟨rfl, rfl⟩
    · rw [hrun errC]
      rfl
    · show (Clone eng url path (some o) reg).2 = reg
      simp only [Clone]
      rw [hrun none]
      rw [hP]
      simp [freeCloneOptions, hpay]
    · show (Clone eng url path (some o) reg).2.size = reg.size
      simp only [Clone]
      rw [hrun none]
      rw [hP]
      simp [freeCloneOptions, hpay]

/-- C8 witness: a Clone call with a configuration that has a checkout
sub-configuration, a fetch sub-configuration, a branch override and no
callback leaves the handle registry exactly as it was. -/
theorem clone_no_callback_frame_witness :
    (Clone engC8 "u" "p" (some optsC8) HandleList.empty).2 = HandleList.empty :=
  (clone_no_callback_frame engC8 "u" "p" (some optsC8) HandleList.empty
    none rfl).2.2.2.1

/-- C9: when the payload token does not resolve in the handle registry to
a callback registration entry — it is unknown to the registry, or tracks
a value of a different type — the trampoline aborts execution rather than
returning any code to the native engine. -/
theorem trampoline_unresolved_payload_panics
    (reg : HandleList) (errC : Option GoError) (crepo : Nat)
    (name url : String) (payload : Option Nat)
    (h : resolvesToCloneData reg payload = false) :
    (remoteCreateCallback reg errC crepo name url payload).isPanicked = true := by
  rcases hg : reg.get payload with _ | tr
  · simp [remoteCreateCallback, hg, TrampolineResult.isPanicked]
  · rcases tr with d | tag
    · simp [resolvesToCloneData, hg] at h
    · simp [remoteCreateCallback, hg, TrampolineResult.isPanicked]

/-- C9 witness: a token the registry never issued aborts the trampoline. -/
theorem trampoline_unresolved_payload_panics_witness :
    (remoteCreateCallback HandleList.empty none 3 "origin" "u" (some 5)).isPanicked
      = true :=
  trampoline_unresolved_payload_panics HandleList.empty none 3 "origin" "u"
    (some 5) rfl

/-- Managed callback fixture: fails with code -9 and returns no remote. -/
def cbC10 : RemoteCreateCallback := fun _ _ _ => (none, -9)

def dataC10 : CloneCallbackData :=
  { options := { checkoutOpts := none, fetchOptions := none, bare := false,
                 checkoutBranch := "", remoteCreateCallback := some cbC10 } }

def regC10 : HandleList :=
  { nextToken := 2, entries := [(1, Tracked.cloneData dataC10)] }

/-- C10: the finalizer-clearing step on the remote returned by the
managed callback runs before the result code is inspected, so a callback
invocation returning a nil remote together with a negative code faults at
that step with the SetFinalizer runtime error and never reaches the
error-capture branch — no code is ever returned to the engine. -/
theorem trampoline_negative_nil_remote_faults_before_capture
    (reg : HandleList) (errC : Option GoError) (crepo : Nat)
    (name url : String) (payload : Option Nat) (data : CloneCallbackData)
    (cb : RemoteCreateCallback) (ret : Int)
    (hget : reg.get payload = some (Tracked.cloneData data))
    (hcb : data.options.remoteCreateCallback = some cb)
    (hres : cb { ptr := crepo, finalizerSet := false } name url = (none, ret))
    (hret : ret < 0) :
    remoteCreateCallback reg errC crepo name url payload
      = TrampolineResult.panicked
          "runtime.SetFinalizer: pointer not in allocated block" ∧
    ∀ code out ec rf,
      remoteCreateCallback reg errC crepo name url payload
        ≠ TrampolineResult.ret code out ec rf := by
  have h1 : remoteCreateCallback reg errC crepo name url payload
      = TrampolineResult.panicked
          "runtime.SetFinalizer: pointer not in allocated block" := by
    simp [remoteCreateCallback, newRepositoryFromC, hget, hcb, hres,
          setFinalizerNilRemote]
  refine ⟨h1, ?_⟩
  intro code out ec rf hEq
  rw [h1] at hEq
  exact TrampolineResult.noConfusion hEq

/-- C10 witness: a callback returning (nil, -9) makes the trampoline
fault at the SetFinalizer step. -/
theorem trampoline_negative_nil_remote_faults_before_capture_witness :
    remoteCreateCallback regC10 none 7 "origin" "u" (some 1)
      = TrampolineResult.panicked
          "runtime.SetFinalizer: pointer not in allocated block" :=
  (trampoline_negative_nil_remote_faults_before_capture regC10 none 7 "origin"
    "u" (some 1) dataC10 cbC10 (-9) rfl rfl rfl (by decide)).1

end Git2Go
